import Mathlib

/-!
Verification development for the PDF-Image-Adder editor (`src/src/App.tsx`).

The source file holds two variants of the same application:
an earlier single-overlay variant (one overlay image, `imagePos` state) and a
multi-overlay variant (`overlayImages : OverlayImage[]`).  Both are embedded
here.  Numbers that are IEEE doubles in TypeScript are modelled as rationals
(`ℚ`); the coordinate arithmetic of the app is exact over `ℚ`.  Division by
zero in `ℚ` is total (yielding `0`), matching nothing in the source, so all
theorems about the transforms carry the positivity guard the spec demands.

Asynchronous effects are collapsed to their net state updates: `handleExport`
sets `isExporting := true` and resets it in a `finally`; from the caller's
view only the final state is observable, so the embedding returns that final
state together with the delivered output (if any) and the alert message (if
any).
-/

set_option autoImplicit false

namespace PdfImageAdder

/-- A display- or document-space rectangle `{x, y, width, height}`
(`OverlayImage.pos` / `imagePos` in the source). -/
structure Rect where
  x : ℚ
  y : ℚ
  width : ℚ
  height : ℚ
  deriving DecidableEq, Repr

/-- The DOCUMENT-branch conversion from display space to document space,
from `handleExport` (multi variant lines 249–255, single variant lines
780–786):
`originalWidth = pos.width / renderScale`, `originalHeight = pos.height / renderScale`,
`originalX = pos.x / renderScale`, `originalY = pos.y / renderScale`,
`pdfY = page.getHeight() - originalY - originalHeight`. -/
def toDocumentSpace (rect : Rect) (renderScale pageHeight : ℚ) : Rect :=
  { x := rect.x / renderScale
    y := pageHeight - rect.y / renderScale - rect.height / renderScale
    width := rect.width / renderScale
    height := rect.height / renderScale }

/-- The RASTER-branch conversion from display space to export-raster space,
from `handleExport` (multi variant lines 314–317):
`scaledW = (pos.width / renderScale) * exportScale`, and likewise for
`height`, `x`, `y` — same origin, no vertical flip. -/
def toRasterSpace (rect : Rect) (renderScale rasterScale : ℚ) : Rect :=
  { x := rect.x / renderScale * rasterScale
    y := rect.y / renderScale * rasterScale
    width := rect.width / renderScale * rasterScale
    height := rect.height / renderScale * rasterScale }

/-- Modelled from the spec: `toDisplaySpace`, the inverse of
`toDocumentSpace`, does not exist in `src/` (the spec states it in §8 as the
inverse transform used by the round-trip property).  Following the spec's
words: a per-axis linear scale by `renderScale` plus the vertical flip back
from bottom-left to top-left origin. -/
def toDisplaySpace (rect : Rect) (renderScale pageHeight : ℚ) : Rect :=
  { x := rect.x * renderScale
    y := (pageHeight - rect.y - rect.height) * renderScale
    width := rect.width * renderScale
    height := rect.height * renderScale }

/-- `const padding = 40` in `renderPage` (line 165 / 697). -/
def padding : ℚ := 40

/-- The display scale chosen by `renderPage` (multi variant lines 161–172,
single variant lines 693–704):
`scale = min((containerWidth - padding) / nativeWidth,
             (containerHeight - padding) / nativeHeight)`. -/
def computeRenderScale (containerWidth containerHeight nativeWidth nativeHeight : ℚ) : ℚ :=
  min ((containerWidth - padding) / nativeWidth)
      ((containerHeight - padding) / nativeHeight)

/-- A file handed to an upload handler: its name, MIME `type`, and a flag
recording whether its byte content is decodable (a corrupt PNG/JPEG buffer
makes `embedPng` / `embedJpg` reject at export time). -/
structure UploadFile where
  name : String
  fileType : String
  corrupt : Bool
  deriving DecidableEq, Repr

/-- One entry of the Placement Store (`OverlayImage` in the multi variant,
lines 12–17).  The source assigns a random id (`Math.random().toString(36)`);
the embedding uses the file name as the stable identifier, which no claim
distinguishes from a random one. -/
structure OverlayImage where
  id : String
  fileType : String
  corrupt : Bool
  pos : Rect
  deriving DecidableEq, Repr

/-- The intake predicate of `handleImageUpload` (line 51; also the filter of
`handleDrop`, line 97): `file.type.startsWith('image/')`.  `String.startsWith
p s` holds exactly when `p.data` is a prefix of `s.data`; the test is taken
over the character lists so that it evaluates by `decide`. -/
def acceptsImage (fileType : String) : Bool :=
  "image/".data.isPrefixOf fileType.data

/-- The initial rectangle of the `k`-th accepted file of one upload batch
(line 57): `{x: 50 + k*20, y: 50 + k*20, width: 150, height: 150}`. -/
def initialPos (k : Nat) : Rect :=
  { x := 50 + (k : ℚ) * 20, y := 50 + (k : ℚ) * 20, width := 150, height := 150 }

/-- `handleImageUpload` of the multi variant (lines 48–67): every file whose
type starts with `image/` becomes a new placement, offset by its index among
the accepted files of the batch; the batch is appended to the store.  When no
file is accepted the store is untouched (the source alerts instead). -/
def handleImageUpload (prev : List OverlayImage) (files : List UploadFile) :
    List OverlayImage :=
  let newImages : List OverlayImage :=
    ((files.filter fun f => acceptsImage f.fileType).enum).map fun kf =>
      { id := kf.2.name, fileType := kf.2.fileType, corrupt := kf.2.corrupt
        pos := initialPos kf.1 }
  if newImages.length > 0 then prev ++ newImages else prev

/-- `removeImage` (lines 103–105): filter the placement with the given id
out of the store. -/
def removeImage (store : List OverlayImage) (i : String) : List OverlayImage :=
  store.filter fun img => img.id != i

/-- `updateImagePos` restricted to full rectangles (lines 107–111): replace
the position of the placement with the given id, leave the others alone. -/
def updateImagePos (store : List OverlayImage) (i : String) (newPos : Rect) :
    List OverlayImage :=
  store.map fun img => if img.id = i then { img with pos := newPos } else img

/-- The loaded document, standing for both the `File` and the
`PDFDocumentProxy` derived from it: name, byte content, per-page native
heights (indexed 0-based, `length` = page count), and flags recording
whether `PDFDocument.load` and the page re-render of the raster branch
succeed on this document. -/
structure PdfFile where
  name : String
  bytes : List Nat
  pageHeights : List ℚ
  loadOk : Bool
  renderOk : Bool
  deriving DecidableEq, Repr

/-- `exportFormat` state (line 35): `'pdf' | 'jpg' | 'png'`. -/
inductive ExportFormat
  | pdf
  | jpg
  | png
  deriving DecidableEq, Repr

/-- The state of the multi-overlay variant that the claims touch. -/
structure AppState where
  pdfFile : Option PdfFile
  pdfDocProxy : Option PdfFile
  overlayImages : List OverlayImage
  currentPage : Nat
  numPages : Nat
  renderScale : ℚ
  exportFormat : ExportFormat
  isExporting : Bool
  deriving DecidableEq, Repr

/-- The user removing the loaded document (`setPdfFile(null)`, line 403)
combined with the effect that reacts to it (lines 114–120):
`setPdfDocProxy(null); setNumPages(0); setCurrentPage(1)`.
`overlayImages` is not touched by either. -/
def onDocumentCleared (s : AppState) : AppState :=
  { s with pdfFile := none, pdfDocProxy := none, numPages := 0, currentPage := 1 }

/-- One drawing step of an export, identifying the overlay drawn and the
rectangle it is drawn at: `embed` is `page.drawImage` of the DOCUMENT branch
(pdf-lib, document space), `composite` is `ctx.drawImage` of the RASTER
branch (canvas, raster space). -/
inductive DrawOp
  | embed (i : String) (rect : Rect)
  | composite (i : String) (rect : Rect)
  deriving DecidableEq, Repr

/-- The overlay id a drawing step draws. -/
def DrawOp.targetId : DrawOp → String
  | .embed i _ => i
  | .composite i _ => i

/-- The artifact an export delivers: the download file name, the scale the
page itself was re-rendered at (RASTER branch only), and the ordered drawing
steps that produced it. -/
structure ExportOutput where
  filename : String
  pageRenderScale : Option ℚ
  ops : List DrawOp
  deriving DecidableEq, Repr

/-- The PNG/JPEG dispatch of the DOCUMENT branch (lines 236–242 / 763–769):
`embedPng` for `image/png`, `embedJpg` for `image/jpeg` or `image/jpg`
(either may reject on corrupt bytes), otherwise
`throw new Error('Unsupported image format. Please use PNG or JPEG.')`. -/
def decodeImageBytes (fileType : String) (corrupt : Bool) : Except String Unit :=
  if fileType = "image/png" then
    if corrupt then .error "Failed to parse PNG" else .ok ()
  else if fileType = "image/jpeg" || fileType = "image/jpg" then
    if corrupt then .error "Failed to parse JPEG" else .ok ()
  else
    .error "Unsupported image format. Please use PNG or JPEG."

/-- The DOCUMENT-branch loop over `overlayImages` (lines 233–264): decode
each overlay in store order and draw it at
`toDocumentSpace pos renderScale pageHeight`; the first failure aborts the
whole export. -/
def drawAllImages (renderScale pageHeight : ℚ) :
    List OverlayImage → Except String (List DrawOp)
  | [] => .ok []
  | img :: rest =>
    match decodeImageBytes img.fileType img.corrupt with
    | .error e => .error e
    | .ok _ =>
      match drawAllImages renderScale pageHeight rest with
      | .error e => .error e
      | .ok ops => .ok (.embed img.id (toDocumentSpace img.pos renderScale pageHeight) :: ops)

/-- `const targetDPI = 300` (line 286). -/
def targetDPI : ℚ := 300

/-- `const exportScale = targetDPI / 72` (line 287) — the raster branch's
fixed target density, a constant with no `renderScale` in it. -/
def exportScale : ℚ := targetDPI / 72

/-- The RASTER-branch loop over `overlayImages` (lines 306–320): composite
each overlay in store order at `toRasterSpace pos renderScale exportScale`.
(`img.onload` either fires or hangs; it has no failure path in the source.) -/
def rasterOps (renderScale rasterScale : ℚ) (overlays : List OverlayImage) :
    List DrawOp :=
  overlays.map fun img => .composite img.id (toRasterSpace img.pos renderScale rasterScale)

/-- The base-name computation of the raster download name (line 328):
`pdfFile.name.replace(/\.[^/.]+$/, "")`.  The embedding drops the final
dot-separated component when there is one; the regex's refusal to match a
component containing `/` is not modelled (no claim touches file names with
slashes). -/
def stripExtension (name : String) : String :=
  match name.splitOn "." with
  | [] => name
  | [_] => name
  | parts => String.intercalate "." parts.dropLast

/-- Extension string of the raster download name (`.${exportFormat}`). -/
def formatExt : ExportFormat → String
  | .pdf => "pdf"
  | .jpg => "jpg"
  | .png => "png"

/-- The `try` block of `handleExport` of the multi variant (lines 222–334):
the two-branch pipeline producing either a full output or the error that the
surrounding `catch` will report.  The DOCUMENT branch works on a fresh
`PDFDocument.load` of the file's bytes; no state is written here. -/
def exportResult (pdf : PdfFile) (s : AppState) : Except String ExportOutput :=
  match s.exportFormat with
  | .pdf =>
    if pdf.loadOk then
      match pdf.pageHeights[s.currentPage - 1]? with
      | none => .error "Page index out of range"
      | some pageH =>
        match drawAllImages s.renderScale pageH s.overlayImages with
        | .error e => .error e
        | .ok ops =>
          .ok { filename := "modified_" ++ pdf.name, pageRenderScale := none
                ops := ops }
    else .error "Failed to load PDF"
  | fmt =>
    if pdf.renderOk then
      .ok { filename := stripExtension pdf.name ++ "_page" ++ toString s.currentPage
                          ++ "." ++ formatExt fmt
            pageRenderScale := some exportScale
            ops := rasterOps s.renderScale exportScale s.overlayImages }
    else .error "Failed to render page"

/-- `handleExport` of the multi variant (lines 218–341).  Returns the final
state, the delivered output (if the export succeeded), and the alert message
(if the export failed).  The guard (line 219) returns before `setIsExporting`;
every path through the body resets `isExporting` in `finally` (lines
338–340), and a failure is caught, alerted (line 337), and delivers nothing. -/
def handleExport (s : AppState) : AppState × Option ExportOutput × Option String :=
  match s.pdfFile with
  | none => (s, none, none)
  | some pdf =>
    match exportResult pdf s with
    | .ok out => ({ s with isExporting := false }, some out, none)
    | .error e => ({ s with isExporting := false }, none, some ("Failed to export. " ++ e))

/-- The state of the single-overlay variant that the claims touch. -/
structure SingleState where
  pdfFile : Option PdfFile
  imageFile : Option UploadFile
  imagePreviewUrl : Option String
  imagePos : Rect
  currentPage : Nat
  renderScale : ℚ
  exportFormat : ExportFormat
  isExporting : Bool
  deriving DecidableEq, Repr

/-- The `try` block of the single-overlay variant's `handleExport` (lines
753–857).  The DOCUMENT branch decodes the single image, then draws it at
`toDocumentSpace imagePos renderScale pageHeight` (lines 780–794).  The
RASTER branch re-renders the page at scale 1 (line 822) and composites the
overlay at `{x, y, width, height} / renderScale` (lines 839–844). -/
def singleExportResult (pdf : PdfFile) (imgFile : UploadFile) (s : SingleState) :
    Except String ExportOutput :=
  match s.exportFormat with
  | .pdf =>
    if pdf.loadOk then
      match decodeImageBytes imgFile.fileType imgFile.corrupt with
      | .error e => .error e
      | .ok _ =>
        match pdf.pageHeights[s.currentPage - 1]? with
        | none => .error "Page index out of range"
        | some pageH =>
          .ok { filename := "modified_" ++ pdf.name, pageRenderScale := none
                ops := [.embed imgFile.name (toDocumentSpace s.imagePos s.renderScale pageH)] }
    else .error "Failed to load PDF"
  | fmt =>
    if pdf.renderOk then
      .ok { filename := stripExtension pdf.name ++ "_page" ++ toString s.currentPage
                          ++ "." ++ formatExt fmt
            pageRenderScale := some 1
            ops := [.composite imgFile.name
              { x := s.imagePos.x / s.renderScale
                y := s.imagePos.y / s.renderScale
                width := s.imagePos.width / s.renderScale
                height := s.imagePos.height / s.renderScale }] }
    else .error "Failed to render page"

/-- `handleExport` of the single-overlay variant (lines 750–865).  The guard
(line 751) also requires an overlay image and its preview URL; every path
through the body resets `isExporting` in `finally` (lines 862–864). -/
def singleHandleExport (s : SingleState) :
    SingleState × Option ExportOutput × Option String :=
  match s.pdfFile, s.imageFile, s.imagePreviewUrl with
  | some pdf, some imgFile, some _ =>
    match singleExportResult pdf imgFile s with
    | .ok out => ({ s with isExporting := false }, some out, none)
    | .error e => ({ s with isExporting := false }, none, some ("Failed to export. " ++ e))
  | _, _, _ => (s, none, none)

/-! ### Helper lemmas -/

/-- When every overlay of the store decodes, the DOCUMENT-branch loop
succeeds and draws each overlay, in store order, at its
`toDocumentSpace` rectangle. -/
theorem drawAllImages_ok (renderScale pageHeight : ℚ) (l : List OverlayImage)
    (h : ∀ img ∈ l, decodeImageBytes img.fileType img.corrupt = Except.ok ()) :
    drawAllImages renderScale pageHeight l =
      Except.ok (l.map fun img =>
        DrawOp.embed img.id (toDocumentSpace img.pos renderScale pageHeight)) := by
  induction l with
  | nil => rfl
  | cons img rest ih =>
    have h1 := h img (List.mem_cons_self ..)
    have h2 : ∀ i ∈ rest, decodeImageBytes i.fileType i.corrupt = Except.ok () :=
      fun i hi => h i (List.mem_cons_of_mem _ hi)
    simp [drawAllImages, h1, ih h2]

/-- A successful DOCUMENT-branch loop draws one step per overlay of the
store: the output is never a partial prefix. -/
theorem drawAllImages_length (renderScale pageHeight : ℚ) (l : List OverlayImage)
    (ops : List DrawOp) (h : drawAllImages renderScale pageHeight l = Except.ok ops) :
    ops.length = l.length := by
  induction l generalizing ops with
  | nil =>
    simp only [drawAllImages] at h
    cases h
    rfl
  | cons img rest ih =>
    simp only [drawAllImages] at h
    cases hd : decodeImageBytes img.fileType img.corrupt with
    | error e => rw [hd] at h; cases h
    | ok u =>
      rw [hd] at h
      cases hr : drawAllImages renderScale pageHeight rest with
      | error e => rw [hr] at h; cases h
      | ok ops' =>
        rw [hr] at h
        cases h
        simp [ih ops' hr]

/-- A successful export delivers one drawing step per overlay of the store,
in either branch. -/
theorem exportResult_ok_length (pdf : PdfFile) (s : AppState) (out : ExportOutput)
    (h : exportResult pdf s = Except.ok out) :
    out.ops.length = s.overlayImages.length := by
  unfold exportResult at h
  split at h
  · split at h
    · split at h
      · cases h
      · split at h
        · cases h
        · cases h
          exact drawAllImages_length _ _ _ _ (by assumption)
    · cases h
  · split at h
    · cases h
      simp [rasterOps]
    · cases h

/-- The RASTER-branch conversion is the single factor
`rasterScale / renderScale` applied uniformly to all four fields. -/
theorem toRasterSpace_factor (r : Rect) (s e : ℚ) :
    toRasterSpace r s e =
      { x := r.x * (e / s), y := r.y * (e / s)
        width := r.width * (e / s), height := r.height * (e / s) } := by
  simp only [toRasterSpace, Rect.mk.injEq]
  refine ⟨?_, ?_, ?_, ?_⟩ <;> rw [div_mul_eq_mul_div, mul_div_assoc]

/-- `rasterOps` spelled with the uniform conversion factor. -/
theorem rasterOps_factor (sc e : ℚ) (l : List OverlayImage) :
    rasterOps sc e l = l.map fun img => DrawOp.composite img.id
      { x := img.pos.x * (e / sc), y := img.pos.y * (e / sc)
        width := img.pos.width * (e / sc), height := img.pos.height * (e / sc) } := by
  unfold rasterOps
  simp only [toRasterSpace_factor]

/-- `handleImageUpload` appends the accepted files of a batch, in order, to
the store: ids afterwards are the old ids followed by the accepted files'
names in upload order. -/
theorem handleImageUpload_ids (prev : List OverlayImage) (files : List UploadFile) :
    (handleImageUpload prev files).map OverlayImage.id =
      prev.map OverlayImage.id ++
        (files.filter fun f => acceptsImage f.fileType).map UploadFile.name := by
  simp only [handleImageUpload]
  split
  · rw [List.map_append, List.map_map]
    rw [show (OverlayImage.id ∘ fun kf : Nat × UploadFile =>
          ({ id := kf.2.name, fileType := kf.2.fileType, corrupt := kf.2.corrupt
             pos := initialPos kf.1 } : OverlayImage)) = (UploadFile.name ∘ Prod.snd) from rfl]
    rw [← List.map_map, List.enum_map_snd]
  · rename_i hlen
    have hnone : ∀ f ∈ files, acceptsImage f.fileType = false := by simpa using hlen
    have : (files.filter fun f => acceptsImage f.fileType) = [] :=
      List.filter_eq_nil_iff.mpr (by simpa using hnone)
    simp [this]

/-- `lockAspectRatio={true}` on the multi variant's `Rnd` (line 554). -/
def multiLockAspectRatio : Bool := true

/-- The single variant's `Rnd` (lines 1048–1061) passes no
`lockAspectRatio` prop; react-rnd's default for it is `false`. -/
def singleLockAspectRatio : Bool := false

/-! ### Concrete fixtures used by witnesses -/

/-- A one-page 792-unit-high document whose load and render succeed. -/
def samplePdf : PdfFile :=
  { name := "doc.pdf", bytes := [37, 80, 68, 70], pageHeights := [792]
    loadOk := true, renderOk := true }

/-- A decodable PNG overlay at the default initial rectangle. -/
def samplePng : OverlayImage :=
  { id := "logo.png", fileType := "image/png", corrupt := false
    pos := { x := 50, y := 50, width := 150, height := 150 } }

/-- A second decodable overlay, a JPEG at another rectangle. -/
def sampleJpg : OverlayImage :=
  { id := "photo.jpg", fileType := "image/jpeg", corrupt := false
    pos := { x := 70, y := 70, width := 150, height := 150 } }

/-- A multi-variant state with the sample document loaded and two overlays
placed, ready to export as PDF. -/
def sampleState : AppState :=
  { pdfFile := some samplePdf, pdfDocProxy := some samplePdf
    overlayImages := [samplePng, sampleJpg]
    currentPage := 1, numPages := 1, renderScale := 1
    exportFormat := .pdf, isExporting := false }

/-! ### Claims -/

/-- C1: for every display-space rectangle, display scale `s > 0`, and native
page height `h`, the DOCUMENT-branch export transforms each placement's
rectangle to `x' = x/s`, `width' = width/s`, `height' = height/s`,
`y' = h - y/s - height'` (vertical flip to the bottom-left origin), and
embeds the image at exactly that rectangle. -/
theorem document_branch_embeds_at_flipped_rect
    (s : AppState) (pdf : PdfFile) (pageH : ℚ)
    (hpdf : s.pdfFile = some pdf) (hfmt : s.exportFormat = ExportFormat.pdf)
    (hscale : 0 < s.renderScale) (hload : pdf.loadOk = true)
    (hpage : pdf.pageHeights[s.currentPage - 1]? = some pageH)
    (hdec : ∀ img ∈ s.overlayImages,
      decodeImageBytes img.fileType img.corrupt = Except.ok ()) :
    (handleExport s).2.1 = some
      { filename := "modified_" ++ pdf.name
        pageRenderScale := none
        ops := s.overlayImages.map fun img => DrawOp.embed img.id
          { x := img.pos.x / s.renderScale
            y := pageH - img.pos.y / s.renderScale - img.pos.height / s.renderScale
            width := img.pos.width / s.renderScale
            height := img.pos.height / s.renderScale } } := by
  simp [handleExport, hpdf, exportResult, hfmt, hload, hpage,
    drawAllImages_ok _ _ _ hdec, toDocumentSpace]

/-- Witness for C1: exporting the sample state embeds both overlays at
their flipped document-space rectangles. -/
theorem document_branch_embeds_at_flipped_rect_witness :
    (0 : ℚ) < sampleState.renderScale ∧
    (handleExport sampleState).2.1 = some
      { filename := "modified_" ++ samplePdf.name
        pageRenderScale := none
        ops := sampleState.overlayImages.map fun img => DrawOp.embed img.id
          { x := img.pos.x / sampleState.renderScale
            y := 792 - img.pos.y / sampleState.renderScale
                   - img.pos.height / sampleState.renderScale
            width := img.pos.width / sampleState.renderScale
            height := img.pos.height / sampleState.renderScale } } :=
  ⟨by norm_num [sampleState], document_branch_embeds_at_flipped_rect
    sampleState samplePdf 792 rfl rfl (by norm_num [sampleState]) rfl rfl
    (by intro img hmem; simp [sampleState, samplePng, sampleJpg] at hmem
        rcases hmem with h | h <;> subst h <;> rfl)⟩

/-- C2: the page-render step chooses
`displayScale = min((containerWidth - 40) / nativeWidth,
(containerHeight - 40) / nativeHeight)`; for a 612×792 page in an 800×600
viewport this gives ≈ 0.7071, and the placement `{50, 50, 150, 150}` maps to
the document-space rectangle `{70.71, 509.16, 212.13, 212.13}` within a
rounding tolerance of `1/50`. -/
theorem render_scale_formula_and_concrete_scenario :
    (∀ cw ch nw nh : ℚ, computeRenderScale cw ch nw nh =
        min ((cw - 40) / nw) ((ch - 40) / nh)) ∧
    |computeRenderScale 800 600 612 792 - 7071 / 10000| < 1 / 50 ∧
    (let sc := computeRenderScale 800 600 612 792
     let r := toDocumentSpace { x := 50, y := 50, width := 150, height := 150 } sc 792
     |r.x - 7071 / 100| < 1 / 50 ∧ |r.y - 50916 / 100| < 1 / 50 ∧
       |r.width - 21213 / 100| < 1 / 50 ∧ |r.height - 21213 / 100| < 1 / 50) := by
  refine ⟨fun cw ch nw nh => rfl, ?_, ?_, ?_, ?_, ?_⟩ <;>
  · simp only [computeRenderScale, toDocumentSpace, padding]
    rw [abs_sub_lt_iff]
    rw [show min ((800 - 40 : ℚ) / 612) ((600 - 40) / 792) = 560 / 792 by
      rw [min_def]; norm_num]
    constructor <;> norm_num

/-- C3: for every display-space rectangle, display scale `s > 0`, and native
page height `h`, the spec's inverse transform recovers the original exactly
over the rationals: `toDisplaySpace (toDocumentSpace r s h) s h = r`. -/
theorem display_document_roundtrip (r : Rect) (s h : ℚ) (hs : 0 < s) :
    toDisplaySpace (toDocumentSpace r s h) s h = r := by
  obtain ⟨x, y, w, ht⟩ := r
  have hs0 : s ≠ 0 := ne_of_gt hs
  simp only [toDocumentSpace, toDisplaySpace, Rect.mk.injEq]
  refine ⟨?_, ?_, ?_, ?_⟩ <;> field_simp <;> ring

/-- Witness for C3: the round trip at scale `70/99` and page height 792
recovers `{50, 50, 150, 150}`. -/
theorem display_document_roundtrip_witness :
    (0 : ℚ) < 70 / 99 ∧
    toDisplaySpace
        (toDocumentSpace { x := 50, y := 50, width := 150, height := 150 } (70 / 99) 792)
        (70 / 99) 792
      = { x := 50, y := 50, width := 150, height := 150 } :=
  ⟨by norm_num, display_document_roundtrip _ (70 / 99) 792 (by norm_num)⟩

/-- A single-variant state with the sample document and a PNG overlay
selected, set to raster (jpg) export. -/
def sampleSingleState : SingleState :=
  { pdfFile := some samplePdf, imageFile := some ⟨"logo.png", "image/png", false⟩
    imagePreviewUrl := some "blob:logo", imagePos := { x := 50, y := 50, width := 150, height := 150 }
    currentPage := 1, renderScale := 1, exportFormat := .jpg, isExporting := false }

/-- C4: the RASTER branch re-renders the page at a fixed density that does
not depend on the display scale — `300/72` in the multi variant, native
scale `1` in the single variant — and converts every placement rectangle
with the single factor `rasterScale / displayScale` applied uniformly to
all four fields, with no vertical flip. -/
theorem raster_branch_fixed_density_uniform_factor
    (s : AppState) (pdf : PdfFile)
    (hpdf : s.pdfFile = some pdf) (hfmt : s.exportFormat ≠ ExportFormat.pdf)
    (hrok : pdf.renderOk = true)
    (t : SingleState) (tpdf : PdfFile) (f : UploadFile) (u : String)
    (htp : t.pdfFile = some tpdf) (hti : t.imageFile = some f)
    (htu : t.imagePreviewUrl = some u) (htfmt : t.exportFormat ≠ ExportFormat.pdf)
    (htrok : tpdf.renderOk = true) :
    (handleExport s).2.1 = some
      { filename := stripExtension pdf.name ++ "_page" ++ toString s.currentPage
                      ++ "." ++ formatExt s.exportFormat
        pageRenderScale := some (300 / 72)
        ops := s.overlayImages.map fun img => DrawOp.composite img.id
          { x := img.pos.x * ((300 / 72) / s.renderScale)
            y := img.pos.y * ((300 / 72) / s.renderScale)
            width := img.pos.width * ((300 / 72) / s.renderScale)
            height := img.pos.height * ((300 / 72) / s.renderScale) } } ∧
    (singleHandleExport t).2.1 = some
      { filename := stripExtension tpdf.name ++ "_page" ++ toString t.currentPage
                      ++ "." ++ formatExt t.exportFormat
        pageRenderScale := some 1
        ops := [DrawOp.composite f.name
          { x := t.imagePos.x * (1 / t.renderScale)
            y := t.imagePos.y * (1 / t.renderScale)
            width := t.imagePos.width * (1 / t.renderScale)
            height := t.imagePos.height * (1 / t.renderScale) }] } := by
  constructor
  · cases hf : s.exportFormat with
    | pdf => exact absurd hf hfmt
    | jpg =>
      simp [handleExport, hpdf, exportResult, hf, hrok, rasterOps_factor,
        exportScale, targetDPI]
    | png =>
      simp [handleExport, hpdf, exportResult, hf, hrok, rasterOps_factor,
        exportScale, targetDPI]
  · cases hf : t.exportFormat with
    | pdf => exact absurd hf htfmt
    | jpg =>
      simp [singleHandleExport, htp, hti, htu, singleExportResult, hf, htrok,
        mul_one_div, div_eq_mul_inv]
    | png =>
      simp [singleHandleExport, htp, hti, htu, singleExportResult, hf, htrok,
        mul_one_div, div_eq_mul_inv]

/-- Witness for C4: raster-exporting the sample states renders the page at
`300/72` (multi) and `1` (single) and composites at the uniform factors. -/
theorem raster_branch_fixed_density_uniform_factor_witness :
    (handleExport { sampleState with exportFormat := .png }).2.1 = some
      { filename := stripExtension samplePdf.name ++ "_page"
                      ++ toString ({ sampleState with exportFormat := ExportFormat.png } : AppState).currentPage
                      ++ "." ++ formatExt ({ sampleState with exportFormat := ExportFormat.png } : AppState).exportFormat
        pageRenderScale := some (300 / 72)
        ops := ({ sampleState with exportFormat := ExportFormat.png } : AppState).overlayImages.map
          fun img => DrawOp.composite img.id
            { x := img.pos.x * ((300 / 72) / sampleState.renderScale)
              y := img.pos.y * ((300 / 72) / sampleState.renderScale)
              width := img.pos.width * ((300 / 72) / sampleState.renderScale)
              height := img.pos.height * ((300 / 72) / sampleState.renderScale) } } ∧
    (singleHandleExport sampleSingleState).2.1 = some
      { filename := stripExtension samplePdf.name ++ "_page"
                      ++ toString sampleSingleState.currentPage
                      ++ "." ++ formatExt sampleSingleState.exportFormat
        pageRenderScale := some 1
        ops := [DrawOp.composite "logo.png"
          { x := sampleSingleState.imagePos.x * (1 / sampleSingleState.renderScale)
            y := sampleSingleState.imagePos.y * (1 / sampleSingleState.renderScale)
            width := sampleSingleState.imagePos.width * (1 / sampleSingleState.renderScale)
            height := sampleSingleState.imagePos.height * (1 / sampleSingleState.renderScale) }] } :=
  raster_branch_fixed_density_uniform_factor
    { sampleState with exportFormat := .png } samplePdf rfl (by decide) rfl
    sampleSingleState samplePdf ⟨"logo.png", "image/png", false⟩ "blob:logo"
    rfl rfl rfl (by decide) rfl

/-- C5: every run of the export with a document loaded ends with
`isExporting = false` and leaves the Placement Store and the original
document bytes untouched (the DOCUMENT branch mutates only a fresh copy);
a delivered output always holds one drawing step per stored placement
(never a partial prefix), and a failed run delivers nothing and raises the
alert instead. -/
theorem export_atomic_and_resets_busy_flag
    (s : AppState) (pdf : PdfFile) (hpdf : s.pdfFile = some pdf) :
    (handleExport s).1 = { s with isExporting := false } ∧
    (∀ out, (handleExport s).2.1 = some out →
      out.ops.length = s.overlayImages.length) ∧
    ((handleExport s).2.1 = none → ∃ msg, (handleExport s).2.2 = some msg) := by
  cases hr : exportResult pdf s with
  | ok out =>
    refine ⟨by simp [handleExport, hpdf, hr], ?_, ?_⟩
    · intro o ho
      simp [handleExport, hpdf, hr] at ho
      subst ho
      exact exportResult_ok_length pdf s _ hr
    · intro hnone
      simp [handleExport, hpdf, hr] at hnone
  | error e =>
    refine ⟨by simp [handleExport, hpdf, hr], ?_, ?_⟩
    · intro o ho
      simp [handleExport, hpdf, hr] at ho
    · intro _
      exact ⟨"Failed to export. " ++ e, by simp [handleExport, hpdf, hr]⟩

/-- Witness for C5: an export whose second overlay has a corrupt byte
buffer fails, leaves the store and document in place, resets the busy flag,
delivers nothing, and alerts. -/
theorem export_atomic_and_resets_busy_flag_witness :
    (handleExport { sampleState with
        overlayImages := [samplePng, { sampleJpg with corrupt := true }] }).1
      = { sampleState with
          overlayImages := [samplePng, { sampleJpg with corrupt := true }]
          isExporting := false } ∧
    (∀ out, (handleExport { sampleState with
        overlayImages := [samplePng, { sampleJpg with corrupt := true }] }).2.1 = some out →
      out.ops.length = ({ sampleState with
        overlayImages := [samplePng, { sampleJpg with corrupt := true }] } : AppState).overlayImages.length) ∧
    ((handleExport { sampleState with
        overlayImages := [samplePng, { sampleJpg with corrupt := true }] }).2.1 = none →
      ∃ msg, (handleExport { sampleState with
        overlayImages := [samplePng, { sampleJpg with corrupt := true }] }).2.2 = some msg) :=
  export_atomic_and_resets_busy_flag
    { sampleState with overlayImages := [samplePng, { sampleJpg with corrupt := true }] }
    samplePdf rfl

/-- C6: the RASTER branch composites the overlays in exactly store order
(z-order = insertion order), and uploads append to the store in batch
order, never reordering. -/
theorem raster_composite_in_store_order
    (s : AppState) (pdf : PdfFile) (out : ExportOutput)
    (hpdf : s.pdfFile = some pdf) (hfmt : s.exportFormat ≠ ExportFormat.pdf)
    (hout : (handleExport s).2.1 = some out)
    (prev : List OverlayImage) (files : List UploadFile) :
    out.ops.map DrawOp.targetId = s.overlayImages.map OverlayImage.id ∧
    (handleImageUpload prev files).map OverlayImage.id =
      prev.map OverlayImage.id ++
        (files.filter fun f => acceptsImage f.fileType).map UploadFile.name := by
  refine ⟨?_, handleImageUpload_ids prev files⟩
  cases hr : exportResult pdf s with
  | error e => simp [handleExport, hpdf, hr] at hout
  | ok o =>
    have ho : o = out := by simpa [handleExport, hpdf, hr] using hout
    subst ho
    cases hf : s.exportFormat with
    | pdf => exact absurd hf hfmt
    | jpg =>
      rw [exportResult, hf] at hr
      rcases hrok : pdf.renderOk with _ | _ <;> rw [hrok] at hr
      · cases hr
      · cases hr
        simp [rasterOps, List.map_map, DrawOp.targetId]
    | png =>
      rw [exportResult, hf] at hr
      rcases hrok : pdf.renderOk with _ | _ <;> rw [hrok] at hr
      · cases hr
      · cases hr
        simp [rasterOps, List.map_map, DrawOp.targetId]

/-- Witness for C6: raster-exporting the sample state with overlays
`[logo.png, photo.jpg]` composites them in exactly that order. -/
theorem raster_composite_in_store_order_witness :
    (handleExport { sampleState with exportFormat := .jpg }).2.1 = some
      { filename := stripExtension samplePdf.name ++ "_page"
          ++ toString ({ sampleState with exportFormat := ExportFormat.jpg } : AppState).currentPage
          ++ "." ++ formatExt ({ sampleState with exportFormat := ExportFormat.jpg } : AppState).exportFormat
        pageRenderScale := some exportScale
        ops := rasterOps sampleState.renderScale exportScale sampleState.overlayImages } ∧
    (rasterOps sampleState.renderScale exportScale sampleState.overlayImages).map DrawOp.targetId
        = ({ sampleState with exportFormat := ExportFormat.jpg } : AppState).overlayImages.map OverlayImage.id ∧
    (handleImageUpload [] [⟨"a.png", "image/png", false⟩, ⟨"b.jpg", "image/jpeg", false⟩]).map OverlayImage.id
        = ([] : List OverlayImage).map OverlayImage.id ++
            (([⟨"a.png", "image/png", false⟩, ⟨"b.jpg", "image/jpeg", false⟩] : List UploadFile).filter
              fun f => acceptsImage f.fileType).map UploadFile.name := by
  have h := raster_composite_in_store_order
    { sampleState with exportFormat := .jpg } samplePdf
    { filename := stripExtension samplePdf.name ++ "_page"
        ++ toString ({ sampleState with exportFormat := ExportFormat.jpg } : AppState).currentPage
        ++ "." ++ formatExt ({ sampleState with exportFormat := ExportFormat.jpg } : AppState).exportFormat
      pageRenderScale := some exportScale
      ops := rasterOps sampleState.renderScale exportScale sampleState.overlayImages }
    rfl (by decide) rfl
    [] [⟨"a.png", "image/png", false⟩, ⟨"b.jpg", "image/jpeg", false⟩]
  exact ⟨rfl, h.1, h.2⟩

/-- Counterexample to C7: a dropped or selected file of type `image/gif`
passes the intake check `file.type.startsWith('image/')` and its placement
enters the Placement Store. -/
theorem gif_passes_intake_counterexample :
    (handleImageUpload [] [{ name := "anim.gif", fileType := "image/gif", corrupt := false }]).length = 1 ∧
    (handleImageUpload [] [{ name := "anim.gif", fileType := "image/gif", corrupt := false }]).map
        OverlayImage.fileType = ["image/gif"] := by
  constructor <;> rfl

/-- C7 as amended: intake accepts any file whose MIME type starts with
`image/` — in particular `image/gif` enters the Placement Store — and
non-PNG/JPEG types are rejected only later, at the DOCUMENT-branch export,
with the `Unsupported image format` error. -/
theorem intake_accepts_image_prefix_gif_fails_at_export
    (prev : List OverlayImage) (f : UploadFile) (img : OverlayImage)
    (himg : img.fileType = "image/gif") :
    (handleImageUpload prev [f]).length =
      (if acceptsImage f.fileType then prev.length + 1 else prev.length) ∧
    decodeImageBytes img.fileType img.corrupt =
      Except.error "Unsupported image format. Please use PNG or JPEG." := by
  constructor
  · by_cases ha : acceptsImage f.fileType <;>
      simp [handleImageUpload, List.filter, ha]
  · rw [himg]
    rfl

/-- Witness for the amended C7 at a concrete gif upload. -/
theorem intake_accepts_image_prefix_gif_fails_at_export_witness :
    ({ id := "anim.gif", fileType := "image/gif", corrupt := false
       pos := initialPos 0 } : OverlayImage).fileType = "image/gif" ∧
    ((handleImageUpload [] [{ name := "anim.gif", fileType := "image/gif", corrupt := false }]).length =
      (if acceptsImage "image/gif" then ([] : List OverlayImage).length + 1
       else ([] : List OverlayImage).length) ∧
     decodeImageBytes "image/gif" false =
       Except.error "Unsupported image format. Please use PNG or JPEG.") :=
  ⟨rfl, intake_accepts_image_prefix_gif_fails_at_export []
    { name := "anim.gif", fileType := "image/gif", corrupt := false }
    { id := "anim.gif", fileType := "image/gif", corrupt := false, pos := initialPos 0 }
    rfl⟩

/-- Counterexample to C8: it is not the case that the single-overlay
variant locks the aspect ratio and the multi-overlay variant leaves it
unlocked. -/
theorem aspect_lock_counterexample :
    ¬ (singleLockAspectRatio = true ∧ multiLockAspectRatio = false) := by
  decide

/-- C8 as amended: the multi-overlay variant passes `lockAspectRatio={true}`
to each overlay's `Rnd`, and the single-overlay variant omits the prop,
leaving the aspect-ratio lock disabled. -/
theorem aspect_lock_swapped :
    multiLockAspectRatio = true ∧ singleLockAspectRatio = false := by
  decide

/-- Counterexample to C9: clearing the loaded document resets the proxy and
page state but leaves the Placement Store non-empty — the placement
survives. -/
theorem clear_document_keeps_placements_counterexample :
    (onDocumentCleared sampleState).pdfFile = none ∧
    (onDocumentCleared sampleState).pdfDocProxy = none ∧
    (onDocumentCleared sampleState).overlayImages = [samplePng, sampleJpg] ∧
    [samplePng, sampleJpg] ≠ ([] : List OverlayImage) := by
  refine ⟨rfl, rfl, rfl, ?_⟩
  intro h
  cases h

/-- C9 as amended: a placement is destroyed on its explicit removal
(`removeImage` leaves no placement with the removed id), but clearing the
document leaves the Placement Store unchanged — placements persist across
document removal. -/
theorem placements_survive_document_clear (s : AppState)
    (store : List OverlayImage) (i : String) :
    (onDocumentCleared s).overlayImages = s.overlayImages ∧
    (removeImage store i).all (fun img => img.id != i) = true := by
  refine ⟨rfl, ?_⟩
  simp only [removeImage, List.all_eq_true]
  intro img hmem
  exact (List.mem_filter.mp hmem).2

/-- C10: invoking export with no document loaded (multi variant), or with
no overlay image selected (single variant), returns at the guard: the state
is returned unchanged (the busy flag in particular is untouched), no output
bytes are produced, and no error is alerted. -/
theorem export_guard_noop (s : AppState) (t : SingleState)
    (hs : s.pdfFile = none) (ht : t.imageFile = none) :
    handleExport s = (s, none, none) ∧ singleHandleExport t = (t, none, none) := by
  constructor
  · simp [handleExport, hs]
  · cases hp : t.pdfFile <;> cases hu : t.imagePreviewUrl <;>
      simp [singleHandleExport, hp, ht, hu]

/-- Witness for C10: the guard no-ops on concrete empty states. -/
theorem export_guard_noop_witness :
    handleExport
        { pdfFile := none, pdfDocProxy := none, overlayImages := [samplePng]
          currentPage := 1, numPages := 0, renderScale := 1
          exportFormat := .pdf, isExporting := false }
      = ({ pdfFile := none, pdfDocProxy := none, overlayImages := [samplePng]
           currentPage := 1, numPages := 0, renderScale := 1
           exportFormat := .pdf, isExporting := false }, none, none) ∧
    singleHandleExport
        { pdfFile := some samplePdf, imageFile := none, imagePreviewUrl := none
          imagePos := { x := 50, y := 50, width := 150, height := 150 }
          currentPage := 1, renderScale := 1, exportFormat := .pdf, isExporting := false }
      = ({ pdfFile := some samplePdf, imageFile := none, imagePreviewUrl := none
           imagePos := { x := 50, y := 50, width := 150, height := 150 }
           currentPage := 1, renderScale := 1, exportFormat := .pdf
           isExporting := false }, none, none) :=
  export_guard_noop _ _ rfl rfl

end PdfImageAdder
